/-
  Verification of the communication-service document-generation core.

  Shallow embedding of the relevant JavaScript source files:
    - src/middlewares/validateInput.js   (validateObjectId, sanitizeString, validateUrl)
    - src/controllers/template.controller.js (tenant-scoped CRUD + placeholder extraction)
    - src/controllers/letter.controller.js   (generate-letter pipeline)
    - src/services/memberData.service.js     (member data aggregation, modelled as a stage)
    - the GeneratedLetter mongoose schema    (src/unnamed/part_002)

  JavaScript strings are modelled as Lean `String`; machine-level concerns
  (buffers, real time, the network) are modelled as explicit stage outcomes
  supplied through an environment record.  External libraries at the
  boundary (the WHATWG URL parser, PizZip) are represented by their parsed
  results: `validateUrl` receives the parse outcome (`Option ParsedUrl`),
  and a .docx package is the association list of archive entry names to
  their textual content.
-/
import Mathlib

namespace CommSvc

/-- A JavaScript runtime value at the points where the source inspects
`typeof`: either a string or any non-string value. -/
inductive JSVal where
  | str (s : String)
  | other
deriving DecidableEq

/-- From src/middlewares/validateInput.js lines 6-18.
`validateObjectId(id, fieldName)`: rejects falsy or non-string inputs with
`badRequest("Invalid <field>: must be a string")`, then tests the regex
`^[0-9a-fA-F]{24}$`; on failure `badRequest("Invalid <field>: must be a
valid ObjectId")`; on success returns `true`.  The thrown `AppError` is
modelled as `Except.error` carrying the message.
`isHex24` is the regex `^[0-9a-fA-F]{24}$` of validateInput.js line 12: a
string of exactly 24 hexadecimal characters. -/
def isHex24 (s : String) : Bool :=
  s.data.length = 24 && s.data.all (fun c => c.isDigit || ('a' ≤ c && c ≤ 'f') || ('A' ≤ c && c ≤ 'F'))

def validateObjectId (id : JSVal) (fieldName : String) : Except String Bool :=
  match id with
  | JSVal.other => Except.error ("Invalid " ++ fieldName ++ ": must be a string")
  | JSVal.str s =>
    -- `!id` is true for the empty string (falsy), handled by the same branch
    if s = "" then Except.error ("Invalid " ++ fieldName ++ ": must be a string")
    else if isHex24 s then Except.ok true
    else Except.error ("Invalid " ++ fieldName ++ ": must be a valid ObjectId")

/-- JS `String.prototype.trim`, over lists of characters: strip leading and
trailing whitespace. -/
def trimChars (l : List Char) : List Char :=
  (((l.dropWhile Char.isWhitespace).reverse).dropWhile Char.isWhitespace).reverse

/-- From src/middlewares/validateInput.js lines 23-37.
`sanitizeString(input, maxLength)`: non-strings become `""`; null bytes are
removed, the result trimmed, then truncated to `maxLength`. -/
def sanitizeString (input : JSVal) (maxLength : Nat) : String :=
  match input with
  | JSVal.other => ""
  | JSVal.str s =>
    String.mk ((trimChars (s.data.filter (fun c => c ≠ Char.ofNat 0))).take maxLength)

/-- Result of the WHATWG `new URL(...)` parse, restricted to the two
components the guard inspects.  The parser lowercases the hostname of
http/https URLs; the guard nevertheless lowercases again itself. -/
structure ParsedUrl where
  protocol : String
  hostname : String
deriving DecidableEq

/-- JS `String.prototype.toLowerCase` over the ASCII range. -/
def jsToLower (s : String) : String := String.mk (s.data.map Char.toLower)

/-- JS `String.prototype.endsWith`. -/
def jsEndsWith (s suffixStr : String) : Bool := suffixStr.data.isSuffixOf s.data

/-- JS `String.prototype.startsWith`. -/
def jsStartsWith (s p : String) : Bool := p.data.isPrefixOf s.data

/-- From src/middlewares/validateInput.js lines 66-90: the literal
private/loopback hostname check of `validateUrl`. -/
def isPrivateHostname (hostname : String) : Bool :=
  hostname == "localhost" ||
  hostname == "127.0.0.1" ||
  hostname == "0.0.0.0" ||
  jsStartsWith hostname "192.168." ||
  jsStartsWith hostname "10." ||
  jsStartsWith hostname "172.16." ||
  jsStartsWith hostname "172.17." ||
  jsStartsWith hostname "172.18." ||
  jsStartsWith hostname "172.19." ||
  jsStartsWith hostname "172.20." ||
  jsStartsWith hostname "172.21." ||
  jsStartsWith hostname "172.22." ||
  jsStartsWith hostname "172.23." ||
  jsStartsWith hostname "172.24." ||
  jsStartsWith hostname "172.25." ||
  jsStartsWith hostname "172.26." ||
  jsStartsWith hostname "172.27." ||
  jsStartsWith hostname "172.28." ||
  jsStartsWith hostname "172.29." ||
  jsStartsWith hostname "172.30." ||
  jsStartsWith hostname "172.31."

/-- From src/middlewares/validateInput.js lines 54-57: the allow-list
predicate of `validateUrl` — case-insensitive equality or suffix match on
`"." ++ allowedHost`. -/
def hostAllowed (hostname : String) (allowed : String) : Bool :=
  jsToLower hostname == jsToLower allowed ||
  jsEndsWith (jsToLower hostname) ("." ++ jsToLower allowed)

/-- From src/middlewares/validateInput.js lines 42-96.
`validateUrl(url, allowedHosts)`: `none` models a `new URL` parse failure
(the thrown parse error is caught and re-thrown as `badRequest`).  Checks in
source order: protocol must be http/https; if the allow-list is non-empty
the lowercased hostname must equal an allowed host or end with
`"." ++ allowedHost`; finally literal private/loopback hostnames are
rejected.  Every throw is re-wrapped as `badRequest("Invalid URL: " ++ msg)`. -/
def validateUrl (parsed : Option ParsedUrl) (allowedHosts : List String) :
    Except String ParsedUrl :=
  match parsed with
  | none => Except.error "Invalid URL: parse failure"
  | some u =>
    if !(u.protocol == "http:" || u.protocol == "https:") then
      Except.error "Invalid URL: Invalid protocol"
    else if allowedHosts.length > 0 &&
        !(allowedHosts.any (fun allowed => hostAllowed u.hostname allowed)) then
      Except.error "Invalid URL: Host not allowed"
    else if isPrivateHostname u.hostname then
      Except.error "Invalid URL: Private IP addresses not allowed"
    else
      Except.ok u

/-- Whether an `Except` result is a success. -/
def isOk {ε α : Type} : Except ε α → Bool
  | Except.ok _ => true
  | Except.error _ => false

/-! ## Placeholder extraction

From src/controllers/template.controller.js, lines 131-147 (upload), 447-461
(update) and 632-648 (extract endpoint) — the same scan appears verbatim in
all three places.  The document XML text is scanned with the JS regex
`/\{\{([^}]+)\}\}/g`; each full match has `{{` and `}}` occurrences removed
(`match.replace(/\{\{|\}\}/g, "")`), is trimmed, empty results are filtered
out, and `[...new Set(...)]` de-duplicates keeping first occurrences. -/

/-- One attempt of the regex `\{\{([^}]+)\}\}` after an initial `{{` has been
consumed: greedily take the maximal run of non-`}` characters (at least one),
then require `}}`.  Returns the captured run and the rest of the input after
the match, or `none` when the regex cannot match here. -/
def takeToken (l : List Char) : Option (List Char × List Char) :=
  let run := l.takeWhile (fun c => c ≠ '}')
  if run.isEmpty then none
  else
    match l.drop run.length with
    | '}' :: '}' :: r => some (run, r)
    | _ => none

/-- Left-to-right, non-overlapping scan of the document text for the regex
`\{\{([^}]+)\}\}` (the behaviour of `xmlContent.match(regex)` with the `g`
flag), with an explicit step budget: at each position, a match starts only at
a literal `{{`; on failure the scan advances one character; on success it
resumes after the match.  Every step shortens the input, so a budget of the
input length is always sufficient. -/
def scanTokensF : Nat → List Char → List (List Char)
  | 0, _ => []
  | _ + 1, [] => []
  | fuel + 1, '{' :: '{' :: rest =>
    match takeToken rest with
    | some (tok, rest') => tok :: scanTokensF fuel rest'
    | none => scanTokensF fuel ('{' :: rest)
  | fuel + 1, _ :: rest => scanTokensF fuel rest

/-- All regex matches of the document text, as captured token runs in
left-to-right order. -/
def scanTokens (l : List Char) : List (List Char) :=
  scanTokensF l.length l

/-- The full matched substring reconstructed from a captured run:
`"{{" ++ run ++ "}}"` — the elements of the JS `matches` array. -/
def matchText (tok : List Char) : List Char :=
  '{' :: '{' :: (tok ++ ['}', '}'])

/-- `match.replace(/\{\{|\}\}/g, "")`: scan left to right, deleting each
occurrence of `{{` or `}}`. -/
def stripBraces : List Char → List Char
  | '{' :: '{' :: r => stripBraces r
  | '}' :: '}' :: r => stripBraces r
  | c :: r => c :: stripBraces r
  | [] => []

/-- `[...new Set(list)]`: de-duplication keeping the first occurrence of each
element, preserving first-seen order — insertion into the set, recorded in
`seen`, skips elements already present. -/
def dedupFirstAux {α : Type} [DecidableEq α] (seen : List α) : List α → List α
  | [] => []
  | a :: l => if a ∈ seen then dedupFirstAux seen l else a :: dedupFirstAux (a :: seen) l

def dedupFirst {α : Type} [DecidableEq α] (l : List α) : List α :=
  dedupFirstAux [] l

/-- The mapped-and-trimmed token strings, before de-duplication:
`matches.map((m) => m.replace(/\{\{|\}\}/g, "").trim())`. -/
def rawPlaceholderStrings (xml : List Char) : List (List Char) :=
  (scanTokens xml).map (fun tok => trimChars (stripBraces (matchText tok)))

/-- `extractedPlaceholders` of the source: raw strings filtered non-empty,
then de-duplicated by insertion into a `Set`. -/
def extractedPlaceholders (xml : List Char) : List (List Char) :=
  dedupFirst ((rawPlaceholderStrings xml).filter (fun p => p.length > 0))

/-- The final `placeholders` value: the source re-filters the extracted array
with `(p) => p && typeof p === "string" && p.trim().length > 0`. -/
def placeholdersResult (xml : List Char) : List (List Char) :=
  (extractedPlaceholders xml).filter
    (fun p => !p.isEmpty && (trimChars p).length > 0)

/-- Whether the text contains an occurrence of `{{` — a necessary condition
for any `\{\{([^}]+)\}\}` marker. -/
def hasMarkerBool : List Char → Bool
  | [] => false
  | [_] => false
  | c₁ :: c₂ :: r => (c₁ = '{' && c₂ = '{') || hasMarkerBool (c₂ :: r)

/-! ## Template registry, document packages and controller operations

From src/controllers/template.controller.js.  The mongo collection of
templates is the list `st`; `Template.findOne({_id, tenantId})` is a
first-match search; the external OneDrive/PizZip boundary is an environment
function returning the parsed package. -/

/-- A .docx package as seen through PizZip: archive entry name → textual
content (`zip.files[name].asText()`). -/
abbrev DocxPackage : Type := List (String × List Char)

/-- Occurrence of `needle` as a contiguous subsequence of the haystack. -/
def containsSeq (needle : List Char) : List Char → Bool
  | [] => needle.isEmpty
  | c :: t => needle.isPrefixOf (c :: t) || containsSeq needle t

/-- JS `String.prototype.includes`. -/
def jsIncludes (s sub : String) : Bool := containsSeq sub.data s.data

/-- The template document, per the fields written by the controllers
(`tempolateType` is the source's own spelling). -/
structure Template where
  id : String
  tenantId : String
  name : String
  description : Option String
  category : Option String
  tempolateType : String
  fileId : String
  placeholders : List String
  createdBy : String
deriving DecidableEq

/-- HTTP-level outcome of a controller operation, as produced by the
response middleware: `ok` (200) / `created` (201), `fail` (explicit 4xx
status), `notFound` (404, from `res.notFound` / `res.notFoundRecord`), or
`err` (an exception forwarded to `next(error)`). -/
inductive Resp (α : Type) where
  | ok (data : α)
  | created (data : α)
  | fail (msg : String) (status : Nat)
  | notFound (msg : String)
  | err (msg : String)
deriving DecidableEq

/-- Whether the response is a success (2xx). -/
def Resp.is2xx {α : Type} : Resp α → Bool
  | Resp.ok _ => true
  | Resp.created _ => true
  | _ => false

/-- `Template.findOne({ _id: id, tenantId })`. -/
def findOne (st : List Template) (id tenantId : String) : Option Template :=
  st.find? (fun t => t.id == id && t.tenantId == tenantId)

/-- `sanitizeString` applied to a string value. -/
def sanitizeStringS (s : String) (maxLength : Nat) : String :=
  sanitizeString (JSVal.str s) maxLength

/-- Lines 629-648 / 131-147: fetch the body entry of the package and scan
it; a missing `word/document.xml` throws
`"Invalid .docx file: word/document.xml not found"`. -/
def extractFromPackage (pkg : DocxPackage) : Except String (List String) :=
  match pkg.lookup "word/document.xml" with
  | none => Except.error "Invalid .docx file: word/document.xml not found"
  | some xml => Except.ok ((placeholdersResult xml).map (fun l => String.mk l))

/-- Lines 120-227 of uploadTemplate (and 439-509 of updateTemplate): the
extraction runs inside a `try`/`catch` whose catch block logs the error and
continues the upload with `templatePlaceholders = []`. -/
def uploadPlaceholdersFromFile (pkg : DocxPackage) : List String :=
  match extractFromPackage pkg with
  | Except.ok l => l
  | Except.error _ => []

/-- External collaborators of the template controller: `getOneDriveFile`
composed with `new PizZip(buffer)` (`fetchPkg`), the OneDrive id returned by
`uploadOneDriveFile` (`newFileId`) and the `_id` minted by
`Template.create` (`newTemplateId`). -/
structure TplEnv where
  fetchPkg : String → Except String DocxPackage
  newFileId : String
  newTemplateId : String

/-- `getTemplate` (lines 304-347).  The non-fatal base64 file-content side
load (lines 327-341) never changes the store nor the 200/404 outcome and is
not modelled. -/
def getTemplateOp (tenantId userId id : String) (st : List Template) :
    Resp Template × List Template :=
  if userId == "" || tenantId == "" then
    (Resp.fail "User authentication required" 401, st)
  else
    match validateObjectId (JSVal.str id) "id" with
    | Except.error m => (Resp.err m, st)
    | Except.ok _ =>
      match findOne st id tenantId with
      | none => (Resp.notFound "Template not found", st)
      | some t => (Resp.ok t, st)

/-- `deleteTemplate` (lines 580-605): `findOneAndDelete({_id, tenantId})`
removes the first matching document. -/
def deleteTemplateOp (tenantId userId id : String) (st : List Template) :
    Resp Unit × List Template :=
  if userId == "" || tenantId == "" then
    (Resp.fail "User authentication required" 401, st)
  else
    match validateObjectId (JSVal.str id) "id" with
    | Except.error m => (Resp.err m, st)
    | Except.ok _ =>
      match findOne st id tenantId with
      | none => (Resp.notFound "Template not found", st)
      | some _ =>
        (Resp.ok (), st.eraseP (fun t => t.id == id && t.tenantId == tenantId))

/-- The `updateData` object accumulated by `updateTemplate` (lines 373-554);
`none` = key absent, `some none` = explicit `null`. -/
structure UpdateData where
  name : Option String
  description : Option (Option String)
  category : Option (Option String)
  tempolateType : Option String
deriving DecidableEq

/-- Lines 533-554: build `updateData` from the present body fields
(`none` models the JS `undefined`); empty sanitized `name`/`tempolateType`
fail with 400, falsy `description`/`category` store `null`. -/
def buildUpdateData (name description category tempolateType : Option String) :
    Except (String × Nat) UpdateData :=
  match name with
  | some n =>
    if sanitizeStringS n 200 = "" then
      Except.error ("Invalid input: name cannot be empty", 400)
    else
      buildUpdateDataRest (some (sanitizeStringS n 200)) description category tempolateType
  | none => buildUpdateDataRest none description category tempolateType
where
  buildUpdateDataRest (nm : Option String)
      (description category tempolateType : Option String) :
      Except (String × Nat) UpdateData :=
    let desc : Option (Option String) :=
      description.map (fun d => if d ≠ "" then some (sanitizeStringS d 500) else none)
    let cat : Option (Option String) :=
      category.map (fun c => if c ≠ "" then some (sanitizeStringS c 100) else none)
    match tempolateType with
    | some ty =>
      if sanitizeStringS ty 100 = "" then
        Except.error ("Invalid input: tempolateType cannot be empty", 400)
      else
        Except.ok ⟨nm, desc, cat, some (sanitizeStringS ty 100)⟩
    | none => Except.ok ⟨nm, desc, cat, none⟩

/-- `Object.keys(updateData).length === 0`. -/
def UpdateData.isEmptyUpd (u : UpdateData) : Bool :=
  u.name.isNone && u.description.isNone && u.category.isNone && u.tempolateType.isNone

/-- Application of `findOneAndUpdate`'s `$set` semantics to one document. -/
def applyUpdate (u : UpdateData) (t : Template) : Template :=
  { t with
    name := u.name.getD t.name
    description := match u.description with
      | none => t.description
      | some v => v
    category := match u.category with
      | none => t.category
      | some v => v
    tempolateType := u.tempolateType.getD t.tempolateType }

/-- Replace the first element satisfying `p` by its image under `f`
(the single-document effect of `findOneAndUpdate` / `save`). -/
def updateFirst (p : Template → Bool) (f : Template → Template) :
    List Template → List Template
  | [] => []
  | t :: ts => if p t then f t :: ts else t :: updateFirst p f ts

/-- `updateTemplate` (lines 349-578), metadata path.  The optional
file-replacement branch (lines 376-530) runs strictly after the tenant-scoped
lookup below and is not modelled; no claim depends on it. -/
def updateTemplateOp (tenantId userId id : String)
    (name description category tempolateType : Option String)
    (st : List Template) : Resp Template × List Template :=
  if userId == "" || tenantId == "" then
    (Resp.fail "User authentication required" 401, st)
  else
    match validateObjectId (JSVal.str id) "id" with
    | Except.error m => (Resp.err m, st)
    | Except.ok _ =>
      match findOne st id tenantId with
      | none => (Resp.notFound "Template not found", st)
      | some _ =>
        match buildUpdateData name description category tempolateType with
        | Except.error (m, s) => (Resp.fail m s, st)
        | Except.ok upd =>
          if upd.isEmptyUpd then (Resp.fail "No fields to update" 400, st)
          else
            let st' := updateFirst
              (fun u => u.id == id && u.tenantId == tenantId) (applyUpdate upd) st
            match findOne st' id tenantId with
            | none => (Resp.notFound "Template not found", st')
            | some t' => (Resp.ok t', st')

/-- `extractPlaceholders` endpoint (lines 607-685): tenant-scoped lookup,
file fetch, extraction, then `template.placeholders = ...; template.save()`
(persisted by `_id`). -/
def extractPlaceholdersOp (env : TplEnv) (tenantId userId id : String)
    (st : List Template) : Resp (List String) × List Template :=
  if userId == "" || tenantId == "" then
    (Resp.fail "User authentication required" 401, st)
  else
    match validateObjectId (JSVal.str id) "id" with
    | Except.error m => (Resp.err m, st)
    | Except.ok _ =>
      match findOne st id tenantId with
      | none => (Resp.notFound "Template not found", st)
      | some t =>
        match env.fetchPkg t.fileId with
        | Except.error m => (Resp.err m, st)
        | Except.ok pkg =>
          match extractFromPackage pkg with
          | Except.error m => (Resp.err m, st)
          | Except.ok ph =>
            (Resp.ok ph,
             updateFirst (fun u => u.id == t.id)
               (fun _ => { t with placeholders := ph }) st)

/-- The multer upload: original name, mimetype, and the buffer opened as an
archive. -/
structure UploadFile where
  originalname : String
  mimetype : String
  pkg : DocxPackage

/-- `uploadTemplate` (lines 17-274).  `none` for a body field models the JS
`undefined`/falsy absence (`!name`, `!tempolateType`); `placeholdersBody`
models the request-body `placeholders` once normalised to an array — the
JSON/comma-separated string forms (lines 78-100) produce such an array and
are not separately modelled.  Bookmark-key validation (lines 62-116) only
logs warnings and has no effect on the stored document. -/
def uploadTemplateOp (env : TplEnv) (tenantId userId : String)
    (file : Option UploadFile) (name tempolateType : Option String)
    (description category : Option String)
    (placeholdersBody : Option (List String))
    (st : List Template) : Resp Template × List Template :=
  if userId == "" || tenantId == "" then
    (Resp.fail "User authentication required" 401, st)
  else
    match file with
    | none => (Resp.fail "No file uploaded. Please upload a .docx file" 400, st)
    | some f =>
      if !(jsIncludes f.mimetype "wordprocessingml") &&
          !(jsEndsWith f.originalname ".docx") then
        (Resp.fail "Invalid file type. Only .docx files are allowed" 400, st)
      else if name.getD "" = "" then (Resp.fail "name is required" 400, st)
      else if tempolateType.getD "" = "" then
        (Resp.fail "tempolateType is required" 400, st)
      else
        let templatePlaceholders : List String :=
          match placeholdersBody with
          | some ps => ps.filter (fun p => (trimChars p.data).length > 0)
          | none => uploadPlaceholdersFromFile f.pkg
        let t : Template :=
          { id := env.newTemplateId
            tenantId := tenantId
            name := sanitizeStringS (name.getD "") 200
            description := (description.filter (fun d => d ≠ "")).map
              (fun d => sanitizeStringS d 500)
            category := (category.filter (fun c => c ≠ "")).map
              (fun c => sanitizeStringS c 100)
            tempolateType := sanitizeStringS (tempolateType.getD "") 100
            fileId := env.newFileId
            placeholders := templatePlaceholders
            createdBy := userId }
        (Resp.created t, st ++ [t])

/-! ## Generate-letter pipeline

From src/controllers/letter.controller.js and the GeneratedLetter mongoose
schema (src/unnamed/part_002).  The external stages — OneDrive fetch,
`collectMemberData` (whose axios calls carry a 10s timeout; a timeout
surfaces as the stage's error), `mergeTemplate`, `uploadLetter`,
`generateDownloadUrl`, `GeneratedLetter.create` — are environment
functions; persistent writes (blob uploads, ledger inserts) are tracked in
an explicit state. -/

/-- The flat member-data map produced by `collectMemberData`. -/
abbrev FlatData : Type := List (String × String)

structure LetterEnv where
  templates : List Template
  fetchTemplate : String → Except String (List Char)
  memberData : String → Except String FlatData
  merge : List Char → FlatData → Except String (List Char)
  upload : String → List Char → Except String Unit
  createOk : Bool
  now : String
  downloadUrl : String → String

/-- The persistent stores touched by the pipeline: uploaded blobs and the
generated_letters collection (documents as key/value lists). -/
structure GenState where
  uploads : List (String × List Char)
  ledger : List (List (String × String))
deriving DecidableEq

/-- The schema paths of `GeneratedLetterSchema` (src/unnamed/part_002):
memberId, templateId, fileName, blobPath, contentType, tenantId, and the
defaulted createdAt.  Note: no `createdBy` path is declared. -/
def generatedLetterSchemaPaths : List String :=
  ["memberId", "templateId", "fileName", "blobPath", "contentType", "tenantId",
   "createdAt"]

/-- Mongoose `Model.create` under the default strict mode: keys of the
passed document that are not schema paths are silently dropped; the
`createdAt` default (`Date.now`) fills in when absent. -/
def mongooseCreateGeneratedLetter (doc : List (String × String)) (now : String) :
    List (String × String) :=
  let kept := doc.filter (fun kv => generatedLetterSchemaPaths.contains kv.1)
  if (kept.lookup "createdAt").isNone then kept ++ [("createdAt", now)] else kept

/-- Line 47: `` `letter-${randomUUID()}.docx` ``. -/
def letterFileName (uuid : String) : String := "letter-" ++ uuid ++ ".docx"

/-- Line 48: `` `${req.tenantId}/${memberId}/${fileName}` ``. -/
def letterBlobPath (tenantId memberId uuid : String) : String :=
  tenantId ++ "/" ++ memberId ++ "/" ++ letterFileName uuid

/-- Lines 56-64: the document passed to `GeneratedLetter.create`, including
`createdBy: req.userId`. -/
def letterDoc (userId tenantId memberId templateId uuid : String) :
    List (String × String) :=
  [("memberId", memberId), ("templateId", templateId),
   ("fileName", letterFileName uuid),
   ("blobPath", letterBlobPath tenantId memberId uuid),
   ("contentType", "docx"), ("tenantId", tenantId), ("createdBy", userId)]

/-- `generateLetter` (lines 16-79): auth check, body presence check, id
validation, tenant-scoped template lookup, template fetch, member-data
aggregation, merge, blob upload, ledger insert, signed URL.  `uuid` is the
`randomUUID()` draw of this request. -/
def generateLetter (env : LetterEnv) (userId tenantId memberId templateId uuid : String)
    (st : GenState) : Resp (String × String) × GenState :=
  if userId == "" || tenantId == "" then
    (Resp.fail "User authentication required" 401, st)
  else if memberId == "" || templateId == "" then
    (Resp.fail "memberId and templateId are required" 400, st)
  else
    match validateObjectId (JSVal.str templateId) "templateId" with
    | Except.error m => (Resp.err m, st)
    | Except.ok _ =>
      match validateObjectId (JSVal.str memberId) "memberId" with
      | Except.error m => (Resp.err m, st)
      | Except.ok _ =>
        match findOne env.templates templateId tenantId with
        | none => (Resp.notFound "Template not found or access denied", st)
        | some t =>
          match env.fetchTemplate t.fileId with
          | Except.error m => (Resp.err m, st)
          | Except.ok buf =>
            match env.memberData memberId with
            | Except.error m => (Resp.err m, st)
            | Except.ok data =>
              match env.merge buf data with
              | Except.error m => (Resp.err m, st)
              | Except.ok doc =>
                match env.upload (letterBlobPath tenantId memberId uuid) doc with
                | Except.error m => (Resp.err m, st)
                | Except.ok _ =>
                  if env.createOk then
                    (Resp.created
                      (env.downloadUrl (letterBlobPath tenantId memberId uuid),
                       letterFileName uuid),
                     { uploads := st.uploads ++
                        [(letterBlobPath tenantId memberId uuid, doc)],
                       ledger := st.ledger ++
                        [mongooseCreateGeneratedLetter
                          (letterDoc userId tenantId memberId templateId uuid)
                          env.now] })
                  else
                    (Resp.err "GeneratedLetter.create failed",
                     { uploads := st.uploads ++
                        [(letterBlobPath tenantId memberId uuid, doc)],
                       ledger := st.ledger })

/-! ## Concrete instances used to exercise the theorems -/

def memberIdW : String := "bbbbbbbbbbbbbbbbbbbbbbbb"

def templateIdW : String := "aaaaaaaaaaaaaaaaaaaaaaaa"

def tplW : Template :=
  { id := templateIdW, tenantId := "tenantA", name := "welcome"
    description := none, category := none, tempolateType := "letter"
    fileId := "drive-1", placeholders := ["MemberName"], createdBy := "user-1" }

def stW : List Template := [tplW]

/-- A package whose body text holds one `\x7b\x7bMemberName\x7d\x7d` marker. -/
def pkgBodyW : DocxPackage :=
  [("word/document.xml", "Dear \x7b\x7b MemberName \x7d\x7d,".data)]

/-- A package with no `word/document.xml` entry. -/
def pkgNoBodyW : DocxPackage := [("word/styles.xml", ['s'])]

def tplEnvBodyW : TplEnv :=
  { fetchPkg := fun _ => Except.ok pkgBodyW
    newFileId := "file-new", newTemplateId := "tpl-new" }

def tplEnvNoBodyW : TplEnv :=
  { fetchPkg := fun _ => Except.ok pkgNoBodyW
    newFileId := "file-new", newTemplateId := "tpl-new" }

def uploadFileNoBodyW : UploadFile :=
  { originalname := "letter.docx"
    mimetype := "application/vnd.openxmlformats-officedocument.wordprocessingml.document"
    pkg := pkgNoBodyW }

/-- The template document created by `uploadTemplateOp` on
`uploadFileNoBodyW` with no body placeholders. -/
def uploadedTplW : Template :=
  { id := "tpl-new", tenantId := "tenantA", name := "welcome"
    description := none, category := none, tempolateType := "letter"
    fileId := "file-new", placeholders := [], createdBy := "user-1" }

def letterEnvTimeoutW : LetterEnv :=
  { templates := [tplW], fetchTemplate := fun _ => Except.ok ['T']
    memberData := fun _ => Except.error "timeout of 10000ms exceeded"
    merge := fun b _ => Except.ok b, upload := fun _ _ => Except.ok ()
    createOk := true, now := "2026-10-11T00:00:00Z"
    downloadUrl := fun p => "https://signed.example/" ++ p }

def letterEnvOkW : LetterEnv :=
  { letterEnvTimeoutW with
    memberData := fun _ => Except.ok [("MemberName", "Ada")] }

/-! ## Supporting lemmas for the extraction pipeline -/

theorem dropWhile_dropWhile (p : Char → Bool) (l : List Char) :
    (l.dropWhile p).dropWhile p = l.dropWhile p := by
  induction l with
  | nil => rfl
  | cons a l ih =>
    by_cases h : p a
    · simp [List.dropWhile_cons, h, ih]
    · simp [List.dropWhile_cons, h]

theorem dropWhile_self_head (p : Char → Bool) {b : Char} {l : List Char}
    (h : (b :: l).dropWhile p = b :: l) : p b = false := by
  by_contra hc
  rw [Bool.not_eq_false] at hc
  rw [List.dropWhile_cons, if_pos hc] at h
  have hlen := congrArg List.length h
  have hle := (List.dropWhile_sublist (l := l) p).length_le
  simp only [List.length_cons] at hlen
  omega

/-- A list with no removable leading characters keeps that property after
its trailing characters are removed. -/
theorem dropWhile_trimRight (p : Char → Bool) (m : List Char)
    (hm : m.dropWhile p = m) :
    (((m.reverse).dropWhile p).reverse).dropWhile p =
      ((m.reverse).dropWhile p).reverse := by
  have hsplit : m = ((m.reverse).dropWhile p).reverse ++ ((m.reverse).takeWhile p).reverse := by
    conv_lhs =>
      rw [← m.reverse_reverse,
        ← List.takeWhile_append_dropWhile (p := p) (l := m.reverse),
        List.reverse_append]
  cases hBc : ((m.reverse).dropWhile p).reverse with
  | nil => simp
  | cons b B' =>
    have hbm : m = b :: (B' ++ ((m.reverse).takeWhile p).reverse) := by
      conv_lhs => rw [hsplit]
      rw [hBc, List.cons_append]
    have hm' := hm
    rw [hbm] at hm'
    have hpb : p b = false := dropWhile_self_head p hm'
    rw [List.dropWhile_cons, if_neg (by rw [hpb]; simp)]

theorem trimChars_idem (l : List Char) : trimChars (trimChars l) = trimChars l := by
  unfold trimChars
  rw [dropWhile_trimRight Char.isWhitespace (l.dropWhile Char.isWhitespace)
      (dropWhile_dropWhile Char.isWhitespace l),
    List.reverse_reverse, dropWhile_dropWhile]

theorem dedupFirstAux_mem {α : Type} [DecidableEq α] {b : α} {seen l : List α} :
    b ∈ dedupFirstAux seen l ↔ b ∈ l ∧ b ∉ seen := by
  induction l generalizing seen with
  | nil => simp [dedupFirstAux]
  | cons a l ih =>
    by_cases ha : a ∈ seen
    · rw [dedupFirstAux, if_pos ha, ih]
      simp only [List.mem_cons]
      constructor
      · rintro ⟨hb, hbs⟩
        exact ⟨Or.inr hb, hbs⟩
      · rintro ⟨hb | hb, hbs⟩
        · exact absurd (hb ▸ ha) hbs
        · exact ⟨hb, hbs⟩
    · rw [dedupFirstAux, if_neg ha]
      by_cases hba : b = a
      · subst hba
        simp [ha]
      · simp only [List.mem_cons, hba, false_or, ih]

theorem dedupFirst_mem {α : Type} [DecidableEq α] {b : α} {l : List α} :
    b ∈ dedupFirst l ↔ b ∈ l := by
  rw [dedupFirst, dedupFirstAux_mem]
  simp

theorem dedupFirstAux_nodup {α : Type} [DecidableEq α] (seen l : List α) :
    (dedupFirstAux seen l).Nodup := by
  induction l generalizing seen with
  | nil => simp [dedupFirstAux]
  | cons a l ih =>
    by_cases ha : a ∈ seen
    · rw [dedupFirstAux, if_pos ha]
      exact ih seen
    · rw [dedupFirstAux, if_neg ha]
      refine List.nodup_cons.mpr ⟨?_, ih (a :: seen)⟩
      rw [dedupFirstAux_mem]
      rintro ⟨-, hnot⟩
      exact hnot (List.mem_cons_self a seen)

theorem dedupFirst_nodup {α : Type} [DecidableEq α] (l : List α) :
    (dedupFirst l).Nodup := dedupFirstAux_nodup [] l

theorem dedupFirstAux_sublist {α : Type} [DecidableEq α] (seen l : List α) :
    List.Sublist (dedupFirstAux seen l) l := by
  induction l generalizing seen with
  | nil => simp [dedupFirstAux]
  | cons a l ih =>
    by_cases ha : a ∈ seen
    · rw [dedupFirstAux, if_pos ha]
      exact (ih seen).trans (List.sublist_cons_self a l)
    · rw [dedupFirstAux, if_neg ha]
      exact List.Sublist.cons₂ a (ih (a :: seen))

theorem dedupFirst_sublist {α : Type} [DecidableEq α] (l : List α) :
    List.Sublist (dedupFirst l) l := dedupFirstAux_sublist [] l

theorem hasMarkerBool_cons {c : Char} {rest : List Char}
    (h : hasMarkerBool (c :: rest) = false) : hasMarkerBool rest = false := by
  cases rest with
  | nil => rfl
  | cons c₂ r =>
    rw [hasMarkerBool] at h
    exact (Bool.or_eq_false_iff.mp h).2

theorem hasMarkerBool_brace_brace (rest : List Char) :
    hasMarkerBool ('{' :: '{' :: rest) = true := by
  rw [hasMarkerBool]
  simp

theorem scanTokensF_eq_nil {fuel : Nat} {xml : List Char}
    (h : hasMarkerBool xml = false) : scanTokensF fuel xml = [] := by
  induction fuel generalizing xml with
  | zero => rfl
  | succ f ih =>
    cases xml with
    | nil => rfl
    | cons c rest =>
      rw [scanTokensF.eq_def]
      split
      · rfl
      · rfl
      · exfalso
        rename_i heq₁ heq₂
        simp only [List.cons.injEq] at heq₂
        obtain ⟨hc, hr⟩ := heq₂
        subst hc
        subst hr
        rw [hasMarkerBool_brace_brace] at h
        simp at h
      · rename_i heq₁ heq₂
        simp only [List.cons.injEq] at heq₂
        obtain ⟨hh, ht⟩ := heq₂
        have hf := Nat.succ.inj heq₁
        subst ht
        subst hf
        exact ih (hasMarkerBool_cons h)

theorem scanTokens_eq_nil {xml : List Char} (h : hasMarkerBool xml = false) :
    scanTokens xml = [] := scanTokensF_eq_nil h

/-! ## Supporting lemmas for the registry and the pipeline -/

theorem validateObjectId_ok {s : String} (hid : isHex24 s = true) (fn : String) :
    validateObjectId (JSVal.str s) fn = Except.ok true := by
  have hne : s ≠ "" := by
    intro he
    rw [he] at hid
    exact absurd hid (by decide)
  simp only [validateObjectId]
  rw [if_neg hne, if_pos hid]

theorem findOne_none_of_other_tenant {st : List Template} {t : Template}
    {tenantB : String} (huniq : ∀ u ∈ st, u.id = t.id → u = t)
    (hb : tenantB ≠ t.tenantId) : findOne st t.id tenantB = none := by
  rw [findOne, List.find?_eq_none]
  intro u hu hpu
  rw [Bool.and_eq_true, beq_iff_eq, beq_iff_eq] at hpu
  obtain ⟨hid, htb⟩ := hpu
  have hut := huniq u hu hid
  subst hut
  exact hb htb.symm

theorem findOne_self {st : List Template} {t : Template} (ht : t ∈ st)
    (huniq : ∀ u ∈ st, u.id = t.id → u = t) :
    findOne st t.id t.tenantId = some t := by
  induction st with
  | nil => cases ht
  | cons a st ih =>
    simp only [findOne] at ih ⊢
    by_cases hpa : (a.id == t.id && a.tenantId == t.tenantId) = true
    · rw [List.find?_cons_of_pos
        (p := fun u => u.id == t.id && u.tenantId == t.tenantId) st hpa]
      have hid : a.id = t.id := by
        rw [Bool.and_eq_true, beq_iff_eq, beq_iff_eq] at hpa
        exact hpa.1
      rw [huniq a (List.mem_cons_self a st) hid]
    · rw [List.find?_cons_of_neg
        (p := fun u => u.id == t.id && u.tenantId == t.tenantId) st hpa]
      rcases List.mem_cons.mp ht with h | h
      · exfalso
        apply hpa
        rw [← h]
        simp
      · exact ih h (fun u hu hid => huniq u (List.mem_cons_of_mem a hu) hid)

theorem updateFirst_mem_other {p : Template → Bool} {f : Template → Template}
    {u : Template} : ∀ {st : List Template}, u ∈ st → p u = false →
    u ∈ updateFirst p f st := by
  intro st
  induction st with
  | nil => intro h _; cases h
  | cons a st ih =>
    intro hu hpu
    rw [updateFirst]
    by_cases hpa : p a = true
    · rw [if_pos hpa]
      rcases List.mem_cons.mp hu with h | h
      · exact absurd hpa (by rw [← h, hpu]; simp)
      · exact List.mem_cons_of_mem _ h
    · rw [if_neg hpa]
      rcases List.mem_cons.mp hu with h | h
      · rw [h]
        exact List.mem_cons_self a _
      · exact List.mem_cons_of_mem _ (ih h hpu)

theorem updateFirst_mem_first {p : Template → Bool} {f : Template → Template}
    {t : Template} : ∀ {st : List Template}, t ∈ st →
    (∀ u ∈ st, p u = true → u = t) → p t = true →
    f t ∈ updateFirst p f st := by
  intro st
  induction st with
  | nil => intro h _ _; cases h
  | cons a st ih =>
    intro ht honly hpt
    rw [updateFirst]
    by_cases hpa : p a = true
    · rw [if_pos hpa, honly a (List.mem_cons_self a st) hpa]
      exact List.mem_cons_self _ _
    · rw [if_neg hpa]
      rcases List.mem_cons.mp ht with h | h
      · exact absurd hpt (by rw [h]; simpa using hpa)
      · exact List.mem_cons_of_mem _
          (ih h (fun u hu hp => honly u (List.mem_cons_of_mem a hu) hp) hpt)

theorem updateFirst_mem_src {p : Template → Bool} {f : Template → Template}
    {v : Template} : ∀ {st : List Template}, v ∈ updateFirst p f st →
    (∃ w, w ∈ st ∧ p w = true ∧ v = f w) ∨ v ∈ st := by
  intro st
  induction st with
  | nil => intro h; cases h
  | cons a st ih =>
    intro hv
    rw [updateFirst] at hv
    by_cases hpa : p a = true
    · rw [if_pos hpa] at hv
      rcases List.mem_cons.mp hv with h | h
      · exact Or.inl ⟨a, List.mem_cons_self a st, hpa, h⟩
      · exact Or.inr (List.mem_cons_of_mem a h)
    · rw [if_neg hpa] at hv
      rcases List.mem_cons.mp hv with h | h
      · exact Or.inr (h ▸ List.mem_cons_self a st)
      · rcases ih h with ⟨w, hw, hpw, hvw⟩ | h'
        · exact Or.inl ⟨w, List.mem_cons_of_mem a hw, hpw, hvw⟩
        · exact Or.inr (List.mem_cons_of_mem a h')

theorem string_data_inj {s t : String} (h : s.data = t.data) : s = t := by
  cases s
  cases t
  exact congrArg String.mk h

theorem string_data_append (s t : String) : (s ++ t).data = s.data ++ t.data := by
  cases s
  cases t
  rfl

theorem letterFileName_inj {u v : String} (h : letterFileName u = letterFileName v) :
    u = v := by
  have hd := congrArg String.data h
  simp only [letterFileName, string_data_append] at hd
  exact string_data_inj (List.append_cancel_left (List.append_cancel_right hd))

theorem letterBlobPath_inj_uuid {t m u v : String}
    (h : letterBlobPath t m u = letterBlobPath t m v) : u = v := by
  have hd := congrArg String.data h
  simp only [letterBlobPath, string_data_append] at hd
  exact letterFileName_inj (string_data_inj (List.append_cancel_left hd))

/-- Evaluation of the mongoose create on the controller's document: the
schema filter drops `createdBy`; `createdAt` is defaulted. -/
theorem mongooseCreate_letterDoc (u t m tpl uuid now : String) :
    mongooseCreateGeneratedLetter (letterDoc u t m tpl uuid) now =
      [("memberId", m), ("templateId", tpl), ("fileName", letterFileName uuid),
       ("blobPath", letterBlobPath t m uuid), ("contentType", "docx"),
       ("tenantId", t), ("createdAt", now)] := rfl

theorem letterRecord_ne {u t m tpl u₁ u₂ now : String} (h : u₁ ≠ u₂) :
    mongooseCreateGeneratedLetter (letterDoc u t m tpl u₁) now ≠
      mongooseCreateGeneratedLetter (letterDoc u t m tpl u₂) now := by
  intro heq
  rw [mongooseCreate_letterDoc, mongooseCreate_letterDoc] at heq
  simp only [List.cons.injEq, Prod.mk.injEq] at heq
  exact h (letterFileName_inj heq.2.2.1.2)

/-- Shape of the final state of a successful generate-letter run: exactly
one new blob and exactly one new ledger record, appended in that order. -/
theorem generateLetter_success_shape {env : LetterEnv}
    {userId tenantId memberId templateId uuid : String} {st st' : GenState}
    {r : Resp (String × String)}
    (hgen : generateLetter env userId tenantId memberId templateId uuid st = (r, st'))
    (h2 : Resp.is2xx r = true) :
    ∃ doc, st' = ⟨st.uploads ++ [(letterBlobPath tenantId memberId uuid, doc)],
      st.ledger ++ [mongooseCreateGeneratedLetter
        (letterDoc userId tenantId memberId templateId uuid) env.now]⟩ := by
  unfold generateLetter at hgen
  repeat' split at hgen
  all_goals injection hgen with ha hb
  all_goals subst ha
  all_goals subst hb
  all_goals first
    | exact ⟨_, rfl⟩
    | simp [Resp.is2xx] at h2

/-- Every generate-letter run leaves the stores untouched, or publishes one
blob with the ledger untouched (failed create), or publishes one blob and
then appends one ledger record (success). -/
theorem generateLetter_state_cases (env : LetterEnv)
    (userId tenantId memberId templateId uuid : String) (st : GenState) :
    (generateLetter env userId tenantId memberId templateId uuid st).2 = st ∨
    (∃ doc,
      (generateLetter env userId tenantId memberId templateId uuid st).2 =
        ⟨st.uploads ++ [(letterBlobPath tenantId memberId uuid, doc)], st.ledger⟩ ∧
      Resp.is2xx (generateLetter env userId tenantId memberId templateId uuid st).1 = false) ∨
    (∃ doc,
      (generateLetter env userId tenantId memberId templateId uuid st).2 =
        ⟨st.uploads ++ [(letterBlobPath tenantId memberId uuid, doc)],
         st.ledger ++ [mongooseCreateGeneratedLetter
           (letterDoc userId tenantId memberId templateId uuid) env.now]⟩ ∧
      Resp.is2xx (generateLetter env userId tenantId memberId templateId uuid st).1 = true) := by
  unfold generateLetter
  repeat' split
  all_goals first
    | exact Or.inl rfl
    | exact Or.inr (Or.inl ⟨_, rfl, rfl⟩)
    | exact Or.inr (Or.inr ⟨_, rfl, rfl⟩)

/-! ## Claim theorems -/

/-- C2: for every URL whose hostname is the literal `localhost`, `127.0.0.1`
or `0.0.0.0`, or begins with `10.`, `192.168.`, or `172.16.` through
`172.31.`, `validateUrl` rejects the URL with an error, whatever the
allow-list contains — the private-host check runs after, and independently
of, the allow-list check. -/
theorem outbound_guard_rejects_private (u : ParsedUrl) (allowedHosts : List String)
    (h : isPrivateHostname u.hostname = true) :
    isOk (validateUrl (some u) allowedHosts) = false := by
  simp only [validateUrl, h]
  split
  · rfl
  · split
    · rfl
    · simp [isOk]

/-- Witness for C2: `http://localhost` is rejected even when `localhost`
itself is on the allow-list. -/
theorem outbound_guard_rejects_private_witness :
    isPrivateHostname "localhost" = true ∧
    isOk (validateUrl (some ⟨"http:", "localhost"⟩) ["localhost"]) = false :=
  ⟨by decide, outbound_guard_rejects_private ⟨"http:", "localhost"⟩ ["localhost"] (by decide)⟩

/-- C3: with a non-empty allow-list, a hostname that is neither equal
(case-insensitively) to some allowed host nor ends with `"." ++ allowedHost`
is rejected — a strict-substring resemblance to an allowed host is no
bypass. -/
theorem outbound_guard_no_partial_match (u : ParsedUrl) (allowedHosts : List String)
    (hne : allowedHosts ≠ [])
    (h : ∀ a ∈ allowedHosts, hostAllowed u.hostname a = false) :
    isOk (validateUrl (some u) allowedHosts) = false := by
  have hany : allowedHosts.any (fun allowed => hostAllowed u.hostname allowed) = false := by
    simp only [List.any_eq_false]
    intro a ha
    simp [h a ha]
  have hlen : allowedHosts.length > 0 := List.length_pos.mpr hne
  simp only [validateUrl, hany]
  split
  · rfl
  · split
    · rfl
    · rename_i h₁ h₂
      exfalso
      apply h₂
      simp [hlen]

/-- Witness for C3: `evilprofile-service.example.com` against allow-list
`["profile-service"]` is rejected. -/
theorem outbound_guard_no_partial_match_witness :
    isOk (validateUrl (some ⟨"http:", "evilprofile-service.example.com"⟩)
        ["profile-service"]) = false :=
  outbound_guard_no_partial_match ⟨"http:", "evilprofile-service.example.com"⟩
    ["profile-service"] (by decide) (by decide)

/-- C6: `validateObjectId` succeeds exactly on string inputs of 24
hexadecimal characters; every non-string, every string of another length and
every string with a non-hex character is rejected with a bad-request
error. -/
theorem identifier_validator_exact (v : JSVal) (fieldName : String) :
    isOk (validateObjectId v fieldName) = true ↔
      ∃ s, v = JSVal.str s ∧ isHex24 s = true := by
  cases v with
  | other => simp [validateObjectId, isOk]
  | str s =>
    by_cases hs : s = ""
    · subst hs
      have h0 : isHex24 "" = false := by decide
      simp [validateObjectId, isOk, h0]
    · by_cases hx : isHex24 s = true
      · simp [validateObjectId, hs, hx, isOk]
      · rw [Bool.not_eq_true] at hx
        simp [validateObjectId, hs, hx, isOk]

/-- C7: placeholder extraction over the document-body text is deterministic
(it is a function; running it twice on the same text gives the same list),
returns a de-duplicated list (`Nodup`) of trimmed non-empty tokens, contains
the token of every scanned `{{token}}` marker, preserves first-seen order (the
result is a sublist of the raw token sequence), and a text with no `{{`
occurrence — in particular with zero `{{..}}` markers — yields `[]`, not an
error. -/
theorem placeholder_extraction_props (xml : List Char) :
    placeholdersResult xml = placeholdersResult xml ∧
    (placeholdersResult xml).Nodup ∧
    (∀ t ∈ placeholdersResult xml, trimChars t = t ∧ t ≠ []) ∧
    (∀ tok ∈ scanTokens xml,
        trimChars (stripBraces (matchText tok)) ≠ [] →
        trimChars (stripBraces (matchText tok)) ∈ placeholdersResult xml) ∧
    List.Sublist (placeholdersResult xml) (rawPlaceholderStrings xml) ∧
    (hasMarkerBool xml = false → placeholdersResult xml = []) := by
  refine ⟨rfl, ?_, ?_, ?_, ?_, ?_⟩
  · exact List.Nodup.filter _ (dedupFirst_nodup _)
  · intro t ht
    rw [placeholdersResult, List.mem_filter] at ht
    obtain ⟨htd, htf⟩ := ht
    rw [extractedPlaceholders, dedupFirst_mem, List.mem_filter] at htd
    obtain ⟨htr, _⟩ := htd
    rw [rawPlaceholderStrings, List.mem_map] at htr
    obtain ⟨tok, _, htok⟩ := htr
    constructor
    · rw [← htok, trimChars_idem]
    · intro hnil
      rw [hnil] at htf
      simp at htf
  · intro tok htok hne
    have hraw : trimChars (stripBraces (matchText tok)) ∈ rawPlaceholderStrings xml := by
      rw [rawPlaceholderStrings, List.mem_map]
      exact ⟨tok, htok, rfl⟩
    have hlen : (trimChars (stripBraces (matchText tok))).length > 0 :=
      List.length_pos.mpr hne
    rw [placeholdersResult, List.mem_filter]
    refine ⟨?_, ?_⟩
    · rw [extractedPlaceholders, dedupFirst_mem, List.mem_filter]
      exact ⟨hraw, by simpa using hlen⟩
    · rw [Bool.and_eq_true, trimChars_idem]
      constructor
      · cases hct : trimChars (stripBraces (matchText tok)) with
        | nil => exact absurd hct hne
        | cons a l => simp
      · simpa using hlen
  · exact (List.filter_sublist _).trans
      ((dedupFirst_sublist _).trans (List.filter_sublist _))
  · intro h
    simp [placeholdersResult, extractedPlaceholders, rawPlaceholderStrings,
      scanTokens_eq_nil h, dedupFirst, dedupFirstAux]

/-- Witness for C7: on the concrete text `a {{ x }} b {{x}} c`, the theorem
applies: the scanner sees the two markers, the result is the single trimmed
token `x`. -/
theorem placeholder_extraction_props_witness :
    (['x'] ∈ placeholdersResult "a {{ x }} b {{x}} c".data) ∧
    placeholdersResult "no braces here".data = [] :=
  ⟨by
    have h := (placeholder_extraction_props "a {{ x }} b {{x}} c".data).2.2.2.1
    have hm : [' ', 'x', ' '] ∈ scanTokens "a {{ x }} b {{x}} c".data := by decide
    have := h [' ', 'x', ' '] hm (by decide)
    simpa using this,
   (placeholder_extraction_props "no braces here".data).2.2.2.2.2 (by decide)⟩

/-- C1: a template of tenant A, looked up under a different tenant context B
(with both caller ids present and a well-formed ObjectId), yields a 404
response from get, update, delete and extract alike, and the template store
is not modified by any of the four operations. -/
theorem cross_tenant_unreachable {st : List Template} {t : Template}
    {tenantB userId : String}
    (ht : t ∈ st) (huniq : ∀ u ∈ st, u.id = t.id → u = t)
    (hb : tenantB ≠ t.tenantId) (hbne : tenantB ≠ "") (hune : userId ≠ "")
    (hid : isHex24 t.id = true)
    (name description category tempolateType : Option String) (env : TplEnv) :
    getTemplateOp tenantB userId t.id st = (Resp.notFound "Template not found", st) ∧
    updateTemplateOp tenantB userId t.id name description category tempolateType st =
      (Resp.notFound "Template not found", st) ∧
    deleteTemplateOp tenantB userId t.id st = (Resp.notFound "Template not found", st) ∧
    extractPlaceholdersOp env tenantB userId t.id st =
      (Resp.notFound "Template not found", st) := by
  have hu : (userId == "") = false := beq_eq_false_iff_ne.mpr hune
  have hbq : (tenantB == "") = false := beq_eq_false_iff_ne.mpr hbne
  have hval := validateObjectId_ok hid "id"
  have hfind := findOne_none_of_other_tenant huniq hb
  refine ⟨?_, ?_, ?_, ?_⟩
  · simp [getTemplateOp, hu, hbq, hval, hfind]
  · simp [updateTemplateOp, hu, hbq, hval, hfind]
  · simp [deleteTemplateOp, hu, hbq, hval, hfind]
  · simp [extractPlaceholdersOp, hu, hbq, hval, hfind]

/-- Witness for C1: the concrete one-template store of tenant `tenantA`
queried under `tenantB`. -/
theorem cross_tenant_unreachable_witness :
    getTemplateOp "tenantB" "user-1" tplW.id stW =
      (Resp.notFound "Template not found", stW) ∧
    updateTemplateOp "tenantB" "user-1" tplW.id (some "new name") none none none stW =
      (Resp.notFound "Template not found", stW) ∧
    deleteTemplateOp "tenantB" "user-1" tplW.id stW =
      (Resp.notFound "Template not found", stW) ∧
    extractPlaceholdersOp tplEnvBodyW "tenantB" "user-1" tplW.id stW =
      (Resp.notFound "Template not found", stW) :=
  cross_tenant_unreachable (by decide) (by decide) (by decide) (by decide)
    (by decide) (by decide) (some "new name") none none none tplEnvBodyW

/-- C4: (i) if the member-data aggregation stage fails (e.g. its 10s upstream
timeout), the whole request fails and neither a blob nor a ledger record is
written; (ii) on any non-2xx outcome the ledger is untouched; (iii) the
ledger grows only when the request succeeded, in which case the blob upload
has already happened and exactly one record is appended after it — the
ledger write is the last persistent write. -/
theorem generate_letter_stage_failure_aborts (env : LetterEnv)
    (userId tenantId memberId templateId uuid : String) (st : GenState) :
    (∀ e, env.memberData memberId = Except.error e →
      Resp.is2xx (generateLetter env userId tenantId memberId templateId uuid st).1 = false ∧
      (generateLetter env userId tenantId memberId templateId uuid st).2 = st) ∧
    (Resp.is2xx (generateLetter env userId tenantId memberId templateId uuid st).1 = false →
      (generateLetter env userId tenantId memberId templateId uuid st).2.ledger = st.ledger) ∧
    ((generateLetter env userId tenantId memberId templateId uuid st).2.ledger ≠ st.ledger →
      Resp.is2xx (generateLetter env userId tenantId memberId templateId uuid st).1 = true ∧
      ∃ doc, (generateLetter env userId tenantId memberId templateId uuid st).2 =
        ⟨st.uploads ++ [(letterBlobPath tenantId memberId uuid, doc)],
         st.ledger ++ [mongooseCreateGeneratedLetter
           (letterDoc userId tenantId memberId templateId uuid) env.now]⟩) := by
  refine ⟨?_, ?_, ?_⟩
  · intro e he
    unfold generateLetter
    repeat' split
    all_goals first
      | exact ⟨rfl, rfl⟩
      | simp_all [Resp.is2xx]
  · intro hfail
    rcases generateLetter_state_cases env userId tenantId memberId templateId uuid st with
      h | ⟨d, hd, h2⟩ | ⟨d, hd, h2⟩
    · exact congrArg GenState.ledger h
    · rw [hd]
    · rw [h2] at hfail
      cases hfail
  · intro hled
    rcases generateLetter_state_cases env userId tenantId memberId templateId uuid st with
      h | ⟨d, hd, h2⟩ | ⟨d, hd, h2⟩
    · exact absurd (congrArg GenState.ledger h) hled
    · exact absurd (by rw [hd]) hled
    · exact ⟨h2, d, hd⟩

/-- Witness for C4: the concrete environment whose member-data stage fails
with the axios timeout message; the request fails and the state ⟨[], []⟩ is
unchanged. -/
theorem generate_letter_stage_failure_aborts_witness :
    Resp.is2xx (generateLetter letterEnvTimeoutW "user-1" "tenantA" memberIdW
      templateIdW "uuid-0001" ⟨[], []⟩).1 = false ∧
    (generateLetter letterEnvTimeoutW "user-1" "tenantA" memberIdW
      templateIdW "uuid-0001" ⟨[], []⟩).2 = ⟨[], []⟩ :=
  (generate_letter_stage_failure_aborts letterEnvTimeoutW "user-1" "tenantA"
      memberIdW templateIdW "uuid-0001" ⟨[], []⟩).1
    "timeout of 10000ms exceeded" rfl

/-- C5: two successful generate-letter runs for the same (memberId,
templateId) with distinct UUID draws produce distinct blob paths and append
two distinct ledger records — generation is never idempotent. -/
theorem generation_not_idempotent {env : LetterEnv}
    {userId tenantId memberId templateId u₁ u₂ : String}
    {st0 st1 st2 : GenState} {r1 r2 : Resp (String × String)}
    (h1 : generateLetter env userId tenantId memberId templateId u₁ st0 = (r1, st1))
    (h2 : generateLetter env userId tenantId memberId templateId u₂ st1 = (r2, st2))
    (hs1 : Resp.is2xx r1 = true) (hs2 : Resp.is2xx r2 = true) (hu : u₁ ≠ u₂) :
    letterBlobPath tenantId memberId u₁ ≠ letterBlobPath tenantId memberId u₂ ∧
    st2.ledger = st0.ledger ++
      [mongooseCreateGeneratedLetter (letterDoc userId tenantId memberId templateId u₁) env.now,
       mongooseCreateGeneratedLetter (letterDoc userId tenantId memberId templateId u₂) env.now] ∧
    mongooseCreateGeneratedLetter (letterDoc userId tenantId memberId templateId u₁) env.now ≠
      mongooseCreateGeneratedLetter (letterDoc userId tenantId memberId templateId u₂) env.now := by
  obtain ⟨d1, hst1⟩ := generateLetter_success_shape h1 hs1
  obtain ⟨d2, hst2⟩ := generateLetter_success_shape h2 hs2
  refine ⟨fun hbp => hu (letterBlobPath_inj_uuid hbp), ?_, letterRecord_ne hu⟩
  rw [hst2, hst1]
  simp [List.append_assoc]

/-- Witness for C5: two concrete successful runs with UUIDs `uuid-0001` and
`uuid-0002`. -/
theorem generation_not_idempotent_witness :
    letterBlobPath "tenantA" memberIdW "uuid-0001" ≠
      letterBlobPath "tenantA" memberIdW "uuid-0002" ∧
    (generateLetter letterEnvOkW "user-1" "tenantA" memberIdW templateIdW "uuid-0002"
        (generateLetter letterEnvOkW "user-1" "tenantA" memberIdW templateIdW
          "uuid-0001" ⟨[], []⟩).2).2.ledger =
      [mongooseCreateGeneratedLetter
         (letterDoc "user-1" "tenantA" memberIdW templateIdW "uuid-0001") letterEnvOkW.now,
       mongooseCreateGeneratedLetter
         (letterDoc "user-1" "tenantA" memberIdW templateIdW "uuid-0002") letterEnvOkW.now] ∧
    mongooseCreateGeneratedLetter
        (letterDoc "user-1" "tenantA" memberIdW templateIdW "uuid-0001") letterEnvOkW.now ≠
      mongooseCreateGeneratedLetter
        (letterDoc "user-1" "tenantA" memberIdW templateIdW "uuid-0002") letterEnvOkW.now :=
  @generation_not_idempotent letterEnvOkW "user-1" "tenantA" memberIdW templateIdW
    "uuid-0001" "uuid-0002" ⟨[], []⟩ _ _ _ _ rfl rfl (by decide) (by decide) (by decide)

/-- C9 (code evaluated at the failing input): `generateLetter` passes
`createdBy: req.userId` to `GeneratedLetter.create`, but the schema declares
no `createdBy` path, so the persisted record has no `createdBy` key while
the other claimed fields are all persisted. -/
theorem generation_record_createdBy_dropped
    (userId tenantId memberId templateId uuid now : String) :
    (letterDoc userId tenantId memberId templateId uuid).lookup "createdBy" = some userId ∧
    (mongooseCreateGeneratedLetter (letterDoc userId tenantId memberId templateId uuid)
      now).lookup "createdBy" = none ∧
    (mongooseCreateGeneratedLetter (letterDoc userId tenantId memberId templateId uuid)
      now).lookup "memberId" = some memberId ∧
    (mongooseCreateGeneratedLetter (letterDoc userId tenantId memberId templateId uuid)
      now).lookup "templateId" = some templateId ∧
    (mongooseCreateGeneratedLetter (letterDoc userId tenantId memberId templateId uuid)
      now).lookup "fileName" = some (letterFileName uuid) ∧
    (mongooseCreateGeneratedLetter (letterDoc userId tenantId memberId templateId uuid)
      now).lookup "blobPath" = some (letterBlobPath tenantId memberId uuid) ∧
    (mongooseCreateGeneratedLetter (letterDoc userId tenantId memberId templateId uuid)
      now).lookup "contentType" = some "docx" ∧
    (mongooseCreateGeneratedLetter (letterDoc userId tenantId memberId templateId uuid)
      now).lookup "tenantId" = some tenantId ∧
    (mongooseCreateGeneratedLetter (letterDoc userId tenantId memberId templateId uuid)
      now).lookup "createdAt" = some now :=
  ⟨rfl, rfl, rfl, rfl, rfl, rfl, rfl, rfl, rfl⟩

/-- C10: on a successful extraction, the endpoint returns the extracted
token list, saves the template with exactly its placeholders field replaced
by that list (name, description, category, tempolateType, fileId, tenantId,
createdBy unchanged), and no other document of the store is affected. -/
theorem extract_updates_only_placeholders {st : List Template} {t : Template}
    {userId : String} {env : TplEnv} {pkg : DocxPackage} {xml : List Char}
    (ht : t ∈ st) (huniq : ∀ u ∈ st, u.id = t.id → u = t)
    (htne : t.tenantId ≠ "") (hune : userId ≠ "") (hid : isHex24 t.id = true)
    (hfetch : env.fetchPkg t.fileId = Except.ok pkg)
    (hxml : pkg.lookup "word/document.xml" = some xml) :
    extractPlaceholdersOp env t.tenantId userId t.id st =
      (Resp.ok ((placeholdersResult xml).map (fun l => String.mk l)),
        updateFirst (fun u => u.id == t.id)
          (fun _ => { t with placeholders :=
            (placeholdersResult xml).map (fun l => String.mk l) }) st) ∧
    { t with placeholders := (placeholdersResult xml).map (fun l => String.mk l) } ∈
      (extractPlaceholdersOp env t.tenantId userId t.id st).2 ∧
    (∀ u ∈ st, u.id ≠ t.id →
      u ∈ (extractPlaceholdersOp env t.tenantId userId t.id st).2) ∧
    (∀ u ∈ (extractPlaceholdersOp env t.tenantId userId t.id st).2,
      u = { t with placeholders := (placeholdersResult xml).map (fun l => String.mk l) } ∨
      u ∈ st) ∧
    (∀ ph : List String,
      ({ t with placeholders := ph }).name = t.name ∧
      ({ t with placeholders := ph }).description = t.description ∧
      ({ t with placeholders := ph }).category = t.category ∧
      ({ t with placeholders := ph }).tempolateType = t.tempolateType ∧
      ({ t with placeholders := ph }).fileId = t.fileId ∧
      ({ t with placeholders := ph }).tenantId = t.tenantId ∧
      ({ t with placeholders := ph }).createdBy = t.createdBy ∧
      ({ t with placeholders := ph }).placeholders = ph) := by
  have hu : (userId == "") = false := beq_eq_false_iff_ne.mpr hune
  have htq : (t.tenantId == "") = false := beq_eq_false_iff_ne.mpr htne
  have hval := validateObjectId_ok hid "id"
  have hfind := findOne_self ht huniq
  have hop : extractPlaceholdersOp env t.tenantId userId t.id st =
      (Resp.ok ((placeholdersResult xml).map (fun l => String.mk l)),
        updateFirst (fun u => u.id == t.id)
          (fun _ => { t with placeholders :=
            (placeholdersResult xml).map (fun l => String.mk l) }) st) := by
    simp [extractPlaceholdersOp, hu, htq, hval, hfind, hfetch,
      extractFromPackage, hxml]
  refine ⟨hop, ?_, ?_, ?_, fun ph => ⟨rfl, rfl, rfl, rfl, rfl, rfl, rfl, rfl⟩⟩
  · rw [hop]
    exact updateFirst_mem_first ht
      (fun u hu' hp => huniq u hu' (by simpa using hp)) (by simp)
  · intro u hu' hne
    rw [hop]
    exact updateFirst_mem_other hu' (by simp [hne])
  · intro u hu'
    rw [hop] at hu'
    rcases updateFirst_mem_src hu' with ⟨w, hw, hpw, hvw⟩ | h
    · exact Or.inl (by rw [hvw])
    · exact Or.inr h

/-- Witness for C10: extracting over the concrete store `stW` with a body
containing one marker. -/
theorem extract_updates_only_placeholders_witness :
    extractPlaceholdersOp tplEnvBodyW tplW.tenantId "user-1" tplW.id stW =
      (Resp.ok ((placeholdersResult "Dear \x7b\x7b MemberName \x7d\x7d,".data).map
          (fun l => String.mk l)),
        updateFirst (fun u => u.id == tplW.id)
          (fun _ => { tplW with placeholders :=
            ((placeholdersResult "Dear \x7b\x7b MemberName \x7d\x7d,".data).map
              (fun l => String.mk l)) }) stW) :=
  (@extract_updates_only_placeholders stW tplW "user-1" tplEnvBodyW pkgBodyW
    "Dear \x7b\x7b MemberName \x7d\x7d,".data (by decide) (by decide)
    (by decide) (by decide) (by decide) rfl rfl).1

/-- C8 (amended): with the body entry absent, the standalone extract
endpoint fails with the InvalidTemplatePackage error and leaves the store
untouched; the upload-time extraction of the very same package, however, is
wrapped in a catch that swallows the error and proceeds with an empty
placeholder list. -/
theorem extract_missing_body_behavior {st : List Template} {t : Template}
    {userId : String} {env : TplEnv} {pkg : DocxPackage}
    (ht : t ∈ st) (huniq : ∀ u ∈ st, u.id = t.id → u = t)
    (htne : t.tenantId ≠ "") (hune : userId ≠ "") (hid : isHex24 t.id = true)
    (hfetch : env.fetchPkg t.fileId = Except.ok pkg)
    (hnone : pkg.lookup "word/document.xml" = none) :
    extractPlaceholdersOp env t.tenantId userId t.id st =
      (Resp.err "Invalid .docx file: word/document.xml not found", st) ∧
    extractFromPackage pkg =
      Except.error "Invalid .docx file: word/document.xml not found" ∧
    uploadPlaceholdersFromFile pkg = [] := by
  have hext : extractFromPackage pkg =
      Except.error "Invalid .docx file: word/document.xml not found" := by
    rw [extractFromPackage, hnone]
  have hu : (userId == "") = false := beq_eq_false_iff_ne.mpr hune
  have htq : (t.tenantId == "") = false := beq_eq_false_iff_ne.mpr htne
  have hval := validateObjectId_ok hid "id"
  have hfind := findOne_self ht huniq
  refine ⟨?_, hext, ?_⟩
  · simp [extractPlaceholdersOp, hu, htq, hval, hfind, hfetch, hext]
  · rw [uploadPlaceholdersFromFile, hext]

/-- Witness for C8's amended statement, on the concrete body-less package. -/
theorem extract_missing_body_behavior_witness :
    extractPlaceholdersOp tplEnvNoBodyW tplW.tenantId "user-1" tplW.id stW =
      (Resp.err "Invalid .docx file: word/document.xml not found", stW) ∧
    extractFromPackage pkgNoBodyW =
      Except.error "Invalid .docx file: word/document.xml not found" ∧
    uploadPlaceholdersFromFile pkgNoBodyW = [] :=
  @extract_missing_body_behavior stW tplW "user-1" tplEnvNoBodyW pkgNoBodyW
    (by decide) (by decide) (by decide) (by decide) (by decide) rfl rfl

/-- C8 counterexample: uploading a package with no `word/document.xml`
through uploadTemplate completes with 201 and an empty stored placeholder
list — the upload operation does not fail with InvalidTemplatePackage,
refuting the claim that every extraction-performing operation fails. -/
theorem upload_missing_body_counterexample :
    uploadTemplateOp tplEnvNoBodyW "tenantA" "user-1" (some uploadFileNoBodyW)
        (some "welcome") (some "letter") none none none [] =
      (Resp.created uploadedTplW, [uploadedTplW]) ∧
    uploadedTplW.placeholders = [] ∧
    Resp.is2xx (Resp.created uploadedTplW) = true ∧
    extractFromPackage pkgNoBodyW =
      Except.error "Invalid .docx file: word/document.xml not found" := by
  refine ⟨by decide, rfl, rfl, rfl⟩

end CommSvc
